import Mathlib

/-!
Shallow embedding of `Telegram/SourceFiles/data/data_photo.cpp` (Telegram
Desktop's photo entity): the per-size cloud-file slots, size resolution,
load/cancel/progress operations, file-reference refresh, local-data
collection, image updates and the cancel click handler.

Modelling conventions:
- `QByteArray` is modelled as `List Nat` (a byte blob; only emptiness and
  equality matter here).
- C++ pointers that are only tested for null (`loader`, `uploadingData`)
  become `Option`.
- `float64` arithmetic in `progress()` is modelled over `ℚ`: the code only
  divides, compares and clamps, and the claims' values (50/200) are exact.
- External collaborators that live elsewhere in the repository
  (`Data::LoadCloudFile`, `Data::UpdateCloudFile`, `ImageLocation`,
  `FileLoader::cancel`, the cache store, `base::snap`) are modelled from the
  spec; each such definition carries a doc comment saying so.
- Qt's `QSize` and its `scaled(..., Qt::KeepAspectRatio)` algorithm are
  translated from Qt's documented integer semantics (`qsize.cpp`), since the
  source calls into them.
-/

/-- Byte blobs (`QByteArray`). -/
abbrev Bytes := List Nat

/-- `Data::PhotoSize`: the resolution enum, ordered smallest to largest. -/
inductive PhotoSize where
  | Small
  | Thumbnail
  | Large
deriving DecidableEq, Repr

/-- `Data::PhotoSizeIndex(size)`: the slot index of a `PhotoSize`. -/
def PhotoSizeIndex : PhotoSize → Nat
  | PhotoSize.Small => 0
  | PhotoSize.Thumbnail => 1
  | PhotoSize.Large => 2

/-- `Data::kPhotoSizeCount`: number of resolution slots. -/
def kPhotoSizeCount : Nat := 3

/-- `kPhotoSideLimit` from the anonymous namespace of `data_photo.cpp`. -/
def kPhotoSideLimit : Int := 1280

/-- Modelled from the spec: an active loader handle (`FileLoader`, which is
not under `src/`). Only the observable state this layer reads or signals is
kept: local/auto flags, a cancel-requested flag set by `cancel()`, and the
loader's own progress and offset. -/
structure Loader where
  loadingLocal : Bool
  autoLoading : Bool
  cancelRequested : Bool
  currentProgress : ℚ
  currentOffset : Int
deriving DecidableEq, Repr

/-- Modelled from the spec: an `ImageLocation` descriptor (`ui/image/
image_location.h`, not under `src/`): width, height, a validity flag, the
embedded file-reference copy, and the derived cache key (0 when absent,
matching the key's falsy state). -/
structure ImageLocation where
  valid : Bool
  width : Int
  height : Int
  fileReference : Bytes
  cacheKey : Nat
deriving DecidableEq, Repr

/-- Modelled from the spec: `ImageLocation::refreshFileReference(value)`
stores the freshly obtained reference in the location descriptor. -/
def ImageLocation.refreshFileReference (loc : ImageLocation) (value : Bytes) :
    ImageLocation :=
  { loc with fileReference := value }

/-- `Data::CloudFile::Flag` bits used by this file. -/
structure CloudFileFlags where
  cancelled : Bool
  failed : Bool
deriving DecidableEq, Repr

/-- One resolution slot (`Data::CloudFile`): location descriptor, optional
loader, status flags, stored byte size. -/
structure CloudFile where
  location : ImageLocation
  loader : Option Loader
  flags : CloudFileFlags
  byteSize : Int
deriving DecidableEq, Repr

/-- The fixed array `_images[kPhotoSizeCount]` of slots. -/
structure PhotoImages where
  small : CloudFile
  thumbnail : CloudFile
  large : CloudFile
deriving DecidableEq, Repr

/-- `_images[i]`: indexing into the fixed slot array. The source only ever
indexes with `0 ≤ i < kPhotoSizeCount`; out-of-range defaults to the last
slot. -/
def PhotoImages.get (imgs : PhotoImages) : Nat → CloudFile
  | 0 => imgs.small
  | 1 => imgs.thumbnail
  | _ => imgs.large

/-- `_images[i] = c`: writing one slot of the array. -/
def PhotoImages.set (imgs : PhotoImages) (i : Nat) (c : CloudFile) :
    PhotoImages :=
  match i with
  | 0 => { imgs with small := c }
  | 1 => { imgs with thumbnail := c }
  | _ => { imgs with large := c }

/-- `PhotoData::UploadState`: byte offset, total size, album flag. -/
structure UploadState where
  offset : Int
  size : Int
  waitingForAlbum : Bool
deriving DecidableEq, Repr

/-- The photo entity (`PhotoData`): identity, remote credentials, the slot
array, the write-once inline thumbnail, optional upload state, and the
`date` timestamp used by the click handlers. -/
structure PhotoData where
  id : Nat
  date : Int
  images : PhotoImages
  fileReference : Bytes
  inlineThumbnailBytes : Bytes
  uploadingData : Option UploadState
  dc : Int
  access : Nat
deriving DecidableEq, Repr

/-- The scan of `PhotoData::validSizeIndex`: walk the listed indices in
order, return the first whose location is valid, else fall back to
`PhotoSizeIndex(Large)`. -/
def PhotoData.validSizeIndexLoop (p : PhotoData) : List Nat → Nat
  | [] => PhotoSizeIndex PhotoSize.Large
  | i :: rest =>
    if (p.images.get i).location.valid then i else p.validSizeIndexLoop rest

/-- `PhotoData::validSizeIndex(size)`: scan from `PhotoSizeIndex(size)`
upward through `kPhotoSizeCount - 1`. -/
def PhotoData.validSizeIndex (p : PhotoData) (size : PhotoSize) : Nat :=
  p.validSizeIndexLoop
    (List.range' (PhotoSizeIndex size) (kPhotoSizeCount - PhotoSizeIndex size))

/-- `PhotoData::hasExact(size)`. -/
def PhotoData.hasExact (p : PhotoData) (size : PhotoSize) : Bool :=
  (p.images.get (PhotoSizeIndex size)).location.valid

/-- `PhotoData::loading(size)`. -/
def PhotoData.loadingAt (p : PhotoData) (size : PhotoSize) : Bool :=
  (p.images.get (p.validSizeIndex size)).loader.isSome

/-- `PhotoData::loading()`: the no-argument overload, for `Large`. -/
def PhotoData.loading (p : PhotoData) : Bool :=
  p.loadingAt PhotoSize.Large

/-- `PhotoData::location(size)`: the resolved slot's descriptor. -/
def PhotoData.location (p : PhotoData) (size : PhotoSize) : ImageLocation :=
  (p.images.get (p.validSizeIndex size)).location

/-- `PhotoData::isNull()`: the Large slot's own location is invalid. -/
def PhotoData.isNull (p : PhotoData) : Bool :=
  !(p.images.get (PhotoSizeIndex PhotoSize.Large)).location.valid

/-- `PhotoData::uploading()`. -/
def PhotoData.uploading (p : PhotoData) : Bool :=
  p.uploadingData.isSome

/-- `PhotoData::SideLimit()`. -/
def PhotoData.SideLimit : Int := kPhotoSideLimit

/-- Qt's `QSize` (integer width and height). -/
structure QSize where
  w : Int
  h : Int
deriving DecidableEq, Repr

/-- `QSize::isEmpty()`: width or height is less than 1. -/
def QSize.isEmpty (s : QSize) : Bool :=
  s.w < 1 || s.h < 1

/-- `QSize::scaled(QSize(tw, th), Qt::KeepAspectRatio)`, translated from
Qt's integer algorithm in `qsize.cpp`: with zero width or height the target
is returned unchanged; otherwise `rw = th * w / h` (64-bit truncating
division; all reachable operands here are nonnegative, where truncating and
flooring division agree) decides which target side is kept exactly. -/
def QSize.scaledKeepAspect (s : QSize) (tw th : QSize) : QSize :=
  if s.w = 0 ∨ s.h = 0 then QSize.mk tw.w th.h
  else
    let rw := Int.tdiv (th.h * s.w) s.h
    if rw ≤ tw.w then QSize.mk rw th.h
    else QSize.mk tw.w (Int.tdiv (tw.w * s.h) s.w)

/-- `PhotoData::size(size)`: resolved dimensions, `nullopt` when empty,
unchanged when within `SideLimit`, else downscaled with `KeepAspectRatio`
and clamped below by 1 on each side. -/
def PhotoData.size (p : PhotoData) (size : PhotoSize) : Option QSize :=
  let provided := p.location size
  let result := QSize.mk provided.width provided.height
  let limit := PhotoData.SideLimit
  if result.isEmpty then none
  else if result.w ≤ limit ∧ result.h ≤ limit then some result
  else
    let scaled :=
      result.scaledKeepAspect (QSize.mk limit limit) (QSize.mk limit limit)
    some (QSize.mk (max scaled.w 1) (max scaled.h 1))

/-- `PhotoData::imageByteSize(size)`. -/
def PhotoData.imageByteSize (p : PhotoData) (size : PhotoSize) : Int :=
  (p.images.get (p.validSizeIndex size)).byteSize

/-- Modelled from the spec: `base::snap(value, lo, hi)` (not under `src/`)
clamps a value into `[lo, hi]`. -/
def snap (value lo hi : ℚ) : ℚ :=
  if value < lo then lo else if value > hi then hi else value

/-- `PhotoData::progress()`: while uploading, `offset / size` snapped into
`[0, 1]` when `size > 0`, else `0`; otherwise the Large loader's own
progress while loading, else `0`. -/
def PhotoData.progress (p : PhotoData) : ℚ :=
  match p.uploadingData with
  | some u =>
    if u.size > 0 then snap ((u.offset : ℚ) / (u.size : ℚ)) 0 1 else 0
  | none =>
    match (p.images.get (PhotoSizeIndex PhotoSize.Large)).loader with
    | some l => l.currentProgress
    | none => 0

/-- Modelled from the spec: `FileLoader::cancel()` (not under `src/`)
signals the loader to cancel; cancellation is cooperative, so the model
records the request on the loader. -/
def Loader.cancel (l : Loader) : Loader :=
  { l with cancelRequested := true }

/-- `PhotoData::cancel()`: if the Large slot is loading, tell its loader to
cancel. -/
def PhotoData.cancel (p : PhotoData) : PhotoData :=
  if p.loading then
    let index := PhotoSizeIndex PhotoSize.Large
    match (p.images.get index).loader with
    | some l =>
      let image := p.images.get index
      let cancelledImage := { image with loader := some l.cancel }
      { p with images := p.images.set index cancelledImage }
    | none => p
  else p

/-- `PhotoData::setWaitingForAlbum()`: only while uploading. -/
def PhotoData.setWaitingForAlbum (p : PhotoData) : PhotoData :=
  match p.uploadingData with
  | some u =>
    { p with uploadingData := some { u with waitingForAlbum := true } }
  | none => p

/-- `PhotoData::waitingForAlbum()`. -/
def PhotoData.waitingForAlbum (p : PhotoData) : Bool :=
  match p.uploadingData with
  | some u => u.waitingForAlbum
  | none => false

/-- `PhotoData::fileReference()` accessor. -/
def PhotoData.fileReferenceOf (p : PhotoData) : Bytes :=
  p.fileReference

/-- `PhotoData::refreshFileReference(value)`: store the value on the entity
and refresh every slot's location descriptor. -/
def PhotoData.refreshFileReference (p : PhotoData) (value : Bytes) :
    PhotoData :=
  { p with
    fileReference := value
    images :=
      { small := { p.images.small with
          location := p.images.small.location.refreshFileReference value }
        thumbnail := { p.images.thumbnail with
          location := p.images.thumbnail.location.refreshFileReference value }
        large := { p.images.large with
          location := p.images.large.location.refreshFileReference value } } }

/-- Modelled from the spec: the external cache store (`_owner->cache()`, not
under `src/`) is a keyed byte store; an association list from cache keys to
byte blobs. -/
def Cache : Type := List (Nat × Bytes)

/-- Lookup in the cache store. -/
def Cache.get (c : Cache) (k : Nat) : Option Bytes :=
  List.lookup k c

/-- Modelled from the spec: `copyIfEmpty(fromKey, toKey)` copies the bytes
stored at `fromKey` to `toKey` only if `toKey` currently holds nothing;
existing cached data is never overwritten. -/
def Cache.copyIfEmpty (c : Cache) (fromKey toKey : Nat) : Cache :=
  if (c.get toKey).isSome then c
  else
    match c.get fromKey with
    | some v => (toKey, v) :: c
    | none => c

/-- One iteration of the `collectLocalData` loop for slot `i`: if the
source slot's location has a cache key and the destination slot's location
also has one, ask the cache to copy-if-empty (`Storage::Cache::Key` is falsy
exactly when zero). -/
def PhotoData.collectLocalStep (p other : PhotoData) (c : Cache) (i : Nat) :
    Cache :=
  let fromKey := (other.images.get i).location.cacheKey
  let toKey := (p.images.get i).location.cacheKey
  if fromKey ≠ 0 then
    if toKey ≠ 0 then c.copyIfEmpty fromKey toKey else c
  else c

/-- `PhotoData::collectLocalData(local)`: a no-op when `local` is the entity
itself (pointer identity; the registry creates exactly one entity per id, so
identity is the `id` field), otherwise the cache-copy loop over all slot
indices `0 ≤ i < kPhotoSizeCount`. The entity's own slots are untouched; the
observable effect is on the external cache, returned here. (The source also
copies the in-memory `PhotoMedia` view state, which lives outside this
file's state.) -/
def PhotoData.collectLocalData (p other : PhotoData) (c : Cache) : Cache :=
  if other.id = p.id then c
  else
    (List.range kPhotoSizeCount).foldl (p.collectLocalStep other) c

/-- `LoadFromCloudSetting` (argument is passed through to the downloader). -/
inductive LoadFromCloudSetting where
  | LoadFromCloudOrLocal
  | LoadFromLocalOnly
deriving DecidableEq, Repr

/-- `Data::FileOrigin` context, passed through to the downloader. -/
structure FileOrigin where
  key : Nat
deriving DecidableEq, Repr

/-- Modelled from the spec: `Data::LoadCloudFile` (not under `src/`) starts
or resumes a fetch for a slot unless one is already active — if the slot
already has a loader the call changes nothing; otherwise it attaches a fresh
loader built from the call's policy flags. -/
def LoadCloudFile (file : CloudFile) (fromCloud : LoadFromCloudSetting)
    (autoLoading : Bool) : CloudFile :=
  match file.loader with
  | some _ => file
  | none =>
    let fresh := Loader.mk
      (fromCloud = LoadFromCloudSetting.LoadFromLocalOnly) autoLoading
      false 0 0
    { file with loader := some fresh }

/-- `PhotoData::load(size, origin, fromCloud, autoLoading)`: resolve
`index = validSizeIndex(size)` and hand that slot to the downloader. The
four callbacks and the layout notification touch only external
collaborators (media view, registry), so the entity-state effect is the
slot update. -/
def PhotoData.load (p : PhotoData) (size : PhotoSize) (origin : FileOrigin)
    (fromCloud : LoadFromCloudSetting) (autoLoading : Bool) : PhotoData :=
  let _ := origin
  let index := p.validSizeIndex size
  let image := p.images.get index
  { p with images := p.images.set index (LoadCloudFile image fromCloud autoLoading) }

/-- `ImageWithLocation`: the per-size update data handed to `updateImages`
(the fields beyond the location are consumed by external collaborators). -/
structure ImageWithLocation where
  location : ImageLocation
  bytesCount : Int
deriving DecidableEq, Repr

/-- Modelled from the spec: `Data::UpdateCloudFile` (not under `src/`)
applies freshly arrived metadata to a slot — it stores the new location and
byte count when the incoming location is valid, and leaves the slot alone
otherwise. The load-trigger and preload-apply callbacks touch only external
collaborators. -/
def UpdateCloudFile (file : CloudFile) (data : ImageWithLocation) :
    CloudFile :=
  if data.location.valid then
    { file with location := data.location, byteSize := data.bytesCount }
  else file

/-- `PhotoData::updateImages(inlineThumbnailBytes, small, thumbnail,
large)`: store the inline thumbnail bytes only when non-empty and not yet
set, then update each of the three slots. -/
def PhotoData.updateImages (p : PhotoData) (inlineThumbnailBytes : Bytes)
    (small thumbnail large : ImageWithLocation) : PhotoData :=
  let p :=
    if inlineThumbnailBytes ≠ [] ∧ p.inlineThumbnailBytes = [] then
      { p with inlineThumbnailBytes := inlineThumbnailBytes }
    else p
  let update := fun (q : PhotoData) (size : PhotoSize)
      (data : ImageWithLocation) =>
    let i := PhotoSizeIndex size
    let slot := UpdateCloudFile (q.images.get i) data
    { q with images := q.images.set i slot }
  let p := update p PhotoSize.Small small
  let p := update p PhotoSize.Thumbnail thumbnail
  update p PhotoSize.Large large

/-- The externally observable outcome of the cancel click handler: nothing,
the "cancel upload" UI flow on a resolved message, or the entity-level
download cancel. -/
inductive CancelClickEffect where
  | nothing
  | cancelUploadLayer (item : Nat)
  | entityCancel
deriving DecidableEq, Repr

/-- `PhotoCancelClickHandler::onClickImpl()`: guarded by handler validity
and the entity's `date` timestamp (falsy when 0); while uploading it
resolves the owning message through the registry (`owner().message(...)`,
passed in as `item`) and invokes the external cancel-upload UI flow;
otherwise it calls the entity's `cancel()`. Returns the updated entity and
the external effect. -/
def photoCancelOnClick (valid : Bool) (p : PhotoData) (item : Option Nat) :
    PhotoData × CancelClickEffect :=
  if !valid then (p, CancelClickEffect.nothing)
  else if p.date = 0 then (p, CancelClickEffect.nothing)
  else if p.uploading then
    match item with
    | some m => (p, CancelClickEffect.cancelUploadLayer m)
    | none => (p, CancelClickEffect.nothing)
  else (p.cancel, CancelClickEffect.entityCancel)

/-! Shared concrete helpers for witnesses and scenario checks. -/

/-- A slot with an invalid (empty) location and no loader. -/
def slotInvalid : CloudFile :=
  CloudFile.mk (ImageLocation.mk false 0 0 [] 0) none
    (CloudFileFlags.mk false false) 0

/-- A slot with a valid location of the given dimensions and cache key. -/
def slotValid (w h : Int) (key : Nat) : CloudFile :=
  CloudFile.mk (ImageLocation.mk true w h [] key) none
    (CloudFileFlags.mk false false) 0

/-- An entity whose only valid location sits in the Thumbnail slot. -/
def photoThumbOnly : PhotoData :=
  PhotoData.mk 1 10 (PhotoImages.mk slotInvalid (slotValid 320 240 7) slotInvalid)
    [] [] none 2 9

/-- Claim C1: for every `PhotoSize s`, `validSizeIndex(s)` returns an index
`i ≥ PhotoSizeIndex s` (and below `kPhotoSizeCount`) that is the first index
at or above `PhotoSizeIndex s` whose location is valid; when no index at or
above it has a valid location it returns `PhotoSizeIndex Large`. -/
theorem c1_validSizeIndex_spec (p : PhotoData) (s : PhotoSize) :
    PhotoSizeIndex s ≤ p.validSizeIndex s
    ∧ p.validSizeIndex s < kPhotoSizeCount
    ∧ (∀ j, PhotoSizeIndex s ≤ j → j < p.validSizeIndex s →
        (p.images.get j).location.valid = false)
    ∧ ((p.images.get (p.validSizeIndex s)).location.valid = true
        ∨ ((∀ j, PhotoSizeIndex s ≤ j → j < kPhotoSizeCount →
              (p.images.get j).location.valid = false)
            ∧ p.validSizeIndex s = PhotoSizeIndex PhotoSize.Large)) := by
  cases s <;>
    by_cases h0 : (p.images.get 0).location.valid <;>
    by_cases h1 : (p.images.get 1).location.valid <;>
    by_cases h2 : (p.images.get 2).location.valid <;>
    simp only [PhotoData.validSizeIndex, PhotoData.validSizeIndexLoop,
      PhotoSizeIndex, kPhotoSizeCount, List.range', h0, h1, h2,
      if_true, if_false, Bool.false_eq_true, ite_false, ite_true] <;>
    refine ⟨by omega, by omega, ?_, ?_⟩ <;>
    (first
      | (intro j hj1 hj2; interval_cases j <;> simp_all)
      | (intro j hj2; interval_cases j <;> simp_all)
      | (simp_all; done)
      | (simp_all; intro j hj1 hj2; interval_cases j <;> simp_all)
      | (simp_all; intro j hj2; interval_cases j <;> simp_all))

/-- Witness for C1: on a concrete entity whose only valid slot is
Thumbnail, requesting Small resolves to index 1, so the theorem's scan
clause yields that slot 0 is invalid, and the bounds hold. -/
theorem c1_validSizeIndex_spec_witness :
    (photoThumbOnly.images.get 0).location.valid = false
    ∧ PhotoSizeIndex PhotoSize.Small ≤ photoThumbOnly.validSizeIndex PhotoSize.Small
    ∧ (photoThumbOnly.images.get
        (photoThumbOnly.validSizeIndex PhotoSize.Small)).location.valid = true :=
  ⟨(c1_validSizeIndex_spec photoThumbOnly PhotoSize.Small).2.2.1 0
      (by decide) (by decide),
    (c1_validSizeIndex_spec photoThumbOnly PhotoSize.Small).1,
    (c1_validSizeIndex_spec photoThumbOnly PhotoSize.Small).2.2.2.resolve_right
      (by decide)⟩

/-! Helper lemmas about the slot array and size resolution. -/

/-- Writing a slot and reading it back yields the written slot. -/
theorem PhotoImages.get_set_self (imgs : PhotoImages) (i : Nat)
    (c : CloudFile) : (imgs.set i c).get i = c := by
  rcases i with _ | _ | i <;> rfl

/-- Writing back the slot that was read leaves the array unchanged. -/
theorem PhotoImages.set_get_self (imgs : PhotoImages) (i : Nat) :
    imgs.set i (imgs.get i) = imgs := by
  rcases i with _ | _ | i <;> rfl

/-- Writing a slot whose location agrees with the stored one leaves every
slot's location unchanged. -/
theorem PhotoImages.get_set_location (imgs : PhotoImages) (i : Nat)
    (c : CloudFile) (h : c.location = (imgs.get i).location) (j : Nat) :
    ((imgs.set i c).get j).location = (imgs.get j).location := by
  rcases i with _ | _ | i <;> rcases j with _ | _ | j <;>
    simp_all [PhotoImages.set, PhotoImages.get]

/-- The scan of `validSizeIndex` depends only on the slots' validity. -/
theorem PhotoData.validSizeIndexLoop_congr (p q : PhotoData)
    (h : ∀ j, (p.images.get j).location.valid = (q.images.get j).location.valid)
    (l : List Nat) : p.validSizeIndexLoop l = q.validSizeIndexLoop l := by
  induction l with
  | nil => rfl
  | cons i rest ih => simp only [PhotoData.validSizeIndexLoop, h i, ih]

/-- `validSizeIndex` depends only on the slots' validity. -/
theorem PhotoData.validSizeIndex_congr (p q : PhotoData)
    (h : ∀ j, (p.images.get j).location.valid = (q.images.get j).location.valid)
    (s : PhotoSize) : p.validSizeIndex s = q.validSizeIndex s :=
  p.validSizeIndexLoop_congr q h _

/-- `validSizeIndex(Large)` is always the Large index itself: the scan
starts at the last slot. -/
theorem PhotoData.validSizeIndex_Large (p : PhotoData) :
    p.validSizeIndex PhotoSize.Large = PhotoSizeIndex PhotoSize.Large := by
  by_cases h : (p.images.get 2).location.valid <;>
    simp [PhotoData.validSizeIndex, PhotoData.validSizeIndexLoop,
      PhotoSizeIndex, kPhotoSizeCount, List.range', h]

/-- Claim C2 counterexample: on the concrete entity whose only valid
location is the Thumbnail slot, `isNull()` is indeed true, but
`validSizeIndex(Large)` returns `PhotoSizeIndex(Large)` itself, whose
location is invalid — the fallback index it returns for a `Large` request
is not backed by a valid location, so it is not a usable fallback. -/
theorem c2_counterexample :
    photoThumbOnly.isNull = true
    ∧ photoThumbOnly.validSizeIndex PhotoSize.Large
        = PhotoSizeIndex PhotoSize.Large
    ∧ ((photoThumbOnly.images.get
        (photoThumbOnly.validSizeIndex PhotoSize.Large)).location.valid
          = false) := by
  decide

/-- Claim C2 (amended): `isNull()` is true exactly when the Large slot's
own location is invalid, regardless of whether any smaller slot has a valid
location; for an entity whose only valid location is the Thumbnail slot,
`isNull()` returns true, and the usable fallback index survives for
requests at or below Thumbnail (`validSizeIndex(Thumbnail)` returns the
valid Thumbnail slot), while `validSizeIndex(Large)` returns
`PhotoSizeIndex(Large)`, which is not backed by a valid location. -/
theorem c2_isNull_amended (p : PhotoData) :
    (p.isNull = true
      ↔ (p.images.get (PhotoSizeIndex PhotoSize.Large)).location.valid = false)
    ∧ ((p.images.get 0).location.valid = false →
       (p.images.get 1).location.valid = true →
       (p.images.get 2).location.valid = false →
        p.isNull = true
        ∧ p.validSizeIndex PhotoSize.Large = PhotoSizeIndex PhotoSize.Large
        ∧ (p.images.get (p.validSizeIndex PhotoSize.Large)).location.valid
            = false
        ∧ p.validSizeIndex PhotoSize.Thumbnail
            = PhotoSizeIndex PhotoSize.Thumbnail
        ∧ (p.images.get (p.validSizeIndex PhotoSize.Thumbnail)).location.valid
            = true) := by
  constructor
  · cases h : (p.images.get (PhotoSizeIndex PhotoSize.Large)).location.valid <;>
      simp [PhotoData.isNull, h]
  · intro h0 h1 h2
    refine ⟨?_, p.validSizeIndex_Large, ?_, ?_, ?_⟩ <;>
      simp [PhotoData.isNull, PhotoData.validSizeIndex,
        PhotoData.validSizeIndexLoop, PhotoSizeIndex, kPhotoSizeCount,
        List.range', h0, h1, h2, PhotoData.validSizeIndex_Large]

/-- Witness for C2's amended theorem at the concrete thumbnail-only
entity. -/
theorem c2_isNull_amended_witness :
    photoThumbOnly.isNull = true
    ∧ photoThumbOnly.validSizeIndex PhotoSize.Thumbnail
        = PhotoSizeIndex PhotoSize.Thumbnail
    ∧ (photoThumbOnly.images.get
        (photoThumbOnly.validSizeIndex PhotoSize.Thumbnail)).location.valid
          = true := by
  have h := (c2_isNull_amended photoThumbOnly).2 (by decide) (by decide)
    (by decide)
  exact ⟨h.1, h.2.2.2.1, h.2.2.2.2⟩

/-! Helper lemmas about the downloader delegation. -/

/-- The downloader call never changes a slot's location. -/
theorem LoadCloudFile_location (f : CloudFile) (fc : LoadFromCloudSetting)
    (al : Bool) : (LoadCloudFile f fc al).location = f.location := by
  cases hf : f.loader <;> simp [LoadCloudFile, hf]

/-- After the downloader call the slot carries a loader. -/
theorem LoadCloudFile_isSome (f : CloudFile) (fc : LoadFromCloudSetting)
    (al : Bool) : (LoadCloudFile f fc al).loader.isSome = true := by
  cases hf : f.loader <;> simp [LoadCloudFile, hf]

/-- With a loader already active the downloader call is the identity. -/
theorem LoadCloudFile_of_isSome (f : CloudFile) (fc : LoadFromCloudSetting)
    (al : Bool) (h : f.loader.isSome = true) : LoadCloudFile f fc al = f := by
  cases hf : f.loader
  · rw [hf] at h; cases h
  · simp [LoadCloudFile, hf]

/-- `load` changes no slot's location validity. -/
theorem PhotoData.load_get_location (p : PhotoData) (size : PhotoSize)
    (origin : FileOrigin) (fc : LoadFromCloudSetting) (al : Bool) (j : Nat) :
    ((p.load size origin fc al).images.get j).location
      = (p.images.get j).location := by
  simp only [PhotoData.load]
  exact PhotoImages.get_set_location _ _ _ (LoadCloudFile_location _ _ _) j

/-- `load` leaves all size resolution unchanged. -/
theorem PhotoData.validSizeIndex_load (p : PhotoData) (size s2 : PhotoSize)
    (origin : FileOrigin) (fc : LoadFromCloudSetting) (al : Bool) :
    (p.load size origin fc al).validSizeIndex s2 = p.validSizeIndex s2 :=
  PhotoData.validSizeIndex_congr _ p
    (fun j => by rw [PhotoData.load_get_location]) s2

/-- A `load` call on a slot that already has an active loader changes
nothing. -/
theorem PhotoData.load_noop (p : PhotoData) (size : PhotoSize)
    (origin : FileOrigin) (fc : LoadFromCloudSetting) (al : Bool)
    (h : (p.images.get (p.validSizeIndex size)).loader.isSome = true) :
    p.load size origin fc al = p := by
  simp only [PhotoData.load]
  rw [LoadCloudFile_of_isSome _ _ _ h, PhotoImages.set_get_self]

/-- After a `load` call the resolved slot carries a loader. -/
theorem PhotoData.load_isSome (p : PhotoData) (size : PhotoSize)
    (origin : FileOrigin) (fc : LoadFromCloudSetting) (al : Bool) :
    (((p.load size origin fc al).images.get
      ((p.load size origin fc al).validSizeIndex size)).loader.isSome)
        = true := by
  rw [PhotoData.validSizeIndex_load]
  show ((p.images.set _ _).get _).loader.isSome = true
  rw [PhotoImages.get_set_self]
  exact LoadCloudFile_isSome _ _ _

/-- Claim C3: a `load` whose resolved slot already has an active loader is
a state no-op, and an immediately repeated `load` on the same
not-yet-resolved slot starts no second loader — the state after two calls
equals the state after one, so each slot carries at most one loader. -/
theorem c3_load_idempotent (p : PhotoData) (size : PhotoSize)
    (origin : FileOrigin) (fc : LoadFromCloudSetting) (al : Bool) :
    ((p.images.get (p.validSizeIndex size)).loader.isSome = true →
      p.load size origin fc al = p)
    ∧ (p.load size origin fc al).load size origin fc al
        = p.load size origin fc al := by
  refine ⟨fun h => p.load_noop size origin fc al h, ?_⟩
  exact PhotoData.load_noop _ size origin fc al
    (p.load_isSome size origin fc al)

/-- A loader handle for concrete entities. -/
def loaderIdle : Loader := Loader.mk false false false 0 0

/-- A concrete file origin. -/
def origin0 : FileOrigin := FileOrigin.mk 0

/-- An entity with a valid Large location whose Large slot is already
loading. -/
def photoLoadingLarge : PhotoData :=
  PhotoData.mk 2 10
    (PhotoImages.mk slotInvalid slotInvalid
      (CloudFile.mk (ImageLocation.mk true 800 600 [] 5) (some loaderIdle)
        (CloudFileFlags.mk false false) 0))
    [] [] none 2 9

/-- Witness for C3: on the concrete already-loading entity, a `load` for
`Large` changes nothing. -/
theorem c3_load_idempotent_witness :
    photoLoadingLarge.load PhotoSize.Large origin0
      LoadFromCloudSetting.LoadFromCloudOrLocal false = photoLoadingLarge :=
  (c3_load_idempotent photoLoadingLarge PhotoSize.Large origin0
    LoadFromCloudSetting.LoadFromCloudOrLocal false).1 (by decide)

/-- Claim C4: after `refreshFileReference(v)` the entity's stored reference
equals `v` and every slot's location descriptor carries `v`. -/
theorem c4_refreshFileReference (p : PhotoData) (v : Bytes) (s : PhotoSize) :
    (p.refreshFileReference v).fileReference = v
    ∧ ((p.refreshFileReference v).images.get
        (PhotoSizeIndex s)).location.fileReference = v := by
  cases s <;>
    simp [PhotoData.refreshFileReference, ImageLocation.refreshFileReference,
      PhotoImages.get, PhotoSizeIndex]

/-- `snap` into `[0, 1]` is the usual clamp. -/
theorem snap_zero_one (x : ℚ) : snap x 0 1 = max 0 (min 1 x) := by
  unfold snap
  split_ifs with h1 h2 <;>
    [skip; skip; skip] <;>
    rw [max_def, min_def] <;> split_ifs <;> linarith

/-- Claim C5: while uploading, `progress()` is `offset/size` clamped to
`[0, 1]` and is `0` when the upload size is `0`; while not uploading it is
the Large loader's own progress when one is attached, else `0`. -/
theorem c5_progress_spec (p : PhotoData) :
    (∀ u, p.uploadingData = some u →
      (0 ≤ p.progress ∧ p.progress ≤ 1)
      ∧ (u.size = 0 → p.progress = 0)
      ∧ (0 < u.size →
          p.progress = max 0 (min 1 ((u.offset : ℚ) / (u.size : ℚ)))))
    ∧ (p.uploadingData = none →
        ((p.images.get (PhotoSizeIndex PhotoSize.Large)).loader = none →
          p.progress = 0)
        ∧ (∀ l,
            (p.images.get (PhotoSizeIndex PhotoSize.Large)).loader = some l →
            p.progress = l.currentProgress)) := by
  constructor
  · intro u hu
    refine ⟨?_, ?_, ?_⟩
    · simp only [PhotoData.progress, hu]
      split_ifs with hs
      · rw [snap_zero_one]
        constructor
        · exact le_max_left 0 _
        · rw [max_le_iff]
          exact ⟨by norm_num, le_trans (min_le_left 1 _) le_rfl⟩
      · norm_num
    · intro hz
      simp [PhotoData.progress, hu, hz]
    · intro hpos
      simp only [PhotoData.progress, hu, if_pos hpos]
      exact snap_zero_one _
  · intro hu
    constructor
    · intro hl
      simp [PhotoData.progress, hu, hl]
    · intro l hl
      simp [PhotoData.progress, hu, hl]

/-- An entity mid-upload: offset 50 of 200 bytes. -/
def photoUploading : PhotoData :=
  PhotoData.mk 3 10 (PhotoImages.mk slotInvalid slotInvalid slotInvalid)
    [] [] (some (UploadState.mk 50 200 false)) 2 9

/-- An entity mid-upload whose total size is still zero. -/
def photoUploadingZero : PhotoData :=
  PhotoData.mk 4 10 (PhotoImages.mk slotInvalid slotInvalid slotInvalid)
    [] [] (some (UploadState.mk 0 0 false)) 2 9

/-- Witness for C5: uploading with offset 50 and size 200 gives progress
1/4; uploading with size 0 gives 0. -/
theorem c5_progress_spec_witness :
    photoUploading.progress = 1 / 4 ∧ photoUploadingZero.progress = 0 := by
  constructor
  · rw [((c5_progress_spec photoUploading).1 (UploadState.mk 50 200 false)
      rfl).2.2 (by norm_num)]
    norm_num
  · exact ((c5_progress_spec photoUploadingZero).1 (UploadState.mk 0 0 false)
      rfl).2.1 rfl

/-- Claim C8: `setWaitingForAlbum()` while not uploading changes nothing
and `waitingForAlbum()` is false whenever the entity is not uploading;
while uploading, `setWaitingForAlbum()` sets the flag and
`waitingForAlbum()` reads it back. -/
theorem c8_waitingForAlbum_spec (p : PhotoData) :
    (p.uploading = false →
      p.setWaitingForAlbum = p ∧ p.waitingForAlbum = false)
    ∧ (p.uploading = true →
        p.setWaitingForAlbum.waitingForAlbum = true
        ∧ ∀ u, p.uploadingData = some u →
            p.waitingForAlbum = u.waitingForAlbum) := by
  cases hu : p.uploadingData with
  | none =>
    refine ⟨fun _ => ⟨?_, ?_⟩, fun h => ?_⟩
    · simp [PhotoData.setWaitingForAlbum, hu]
    · simp [PhotoData.waitingForAlbum, hu]
    · simp [PhotoData.uploading, hu] at h
  | some u =>
    refine ⟨fun h => ?_, fun _ => ⟨?_, ?_⟩⟩
    · simp [PhotoData.uploading, hu] at h
    · simp [PhotoData.setWaitingForAlbum, PhotoData.waitingForAlbum, hu]
    · intro u2 hu2
      obtain rfl := Option.some_inj.mp hu2
      simp [PhotoData.waitingForAlbum, hu]

/-- Witness for C8: the thumbnail-only entity is not uploading, so the
setter is a no-op and the getter reads false; the uploading entity's setter
makes the getter read true. -/
theorem c8_waitingForAlbum_spec_witness :
    photoThumbOnly.setWaitingForAlbum = photoThumbOnly
    ∧ photoThumbOnly.waitingForAlbum = false
    ∧ photoUploading.setWaitingForAlbum.waitingForAlbum = true := by
  have h1 := (c8_waitingForAlbum_spec photoThumbOnly).1 (by decide)
  have h2 := (c8_waitingForAlbum_spec photoUploading).2 (by decide)
  exact ⟨h1.1, h1.2, h2.1⟩

/-- What `updateImages` does to the stored inline thumbnail bytes: first
non-empty write wins. -/
theorem PhotoData.updateImages_inline (p : PhotoData) (b : Bytes)
    (s t l : ImageWithLocation) :
    (p.updateImages b s t l).inlineThumbnailBytes =
      if b ≠ [] ∧ p.inlineThumbnailBytes = [] then b
      else p.inlineThumbnailBytes := by
  unfold PhotoData.updateImages
  dsimp only
  split_ifs <;> rfl

/-- Claim C6: the inline thumbnail bytes are write-once — an empty store
accepts the first non-empty bytes; a non-empty store is never changed, so a
second `updateImages` call with different non-empty bytes leaves the first
value in place. -/
theorem c6_inline_thumbnail_write_once (p : PhotoData) (b b2 : Bytes)
    (s t l s2 t2 l2 : ImageWithLocation) :
    (p.inlineThumbnailBytes = [] → b ≠ [] →
      (p.updateImages b s t l).inlineThumbnailBytes = b)
    ∧ (p.inlineThumbnailBytes ≠ [] →
      (p.updateImages b s t l).inlineThumbnailBytes = p.inlineThumbnailBytes)
    ∧ (p.inlineThumbnailBytes = [] → b ≠ [] →
      ((p.updateImages b s t l).updateImages b2 s2 t2 l2).inlineThumbnailBytes
        = b) := by
  refine ⟨fun h hb => ?_, fun h => ?_, fun h hb => ?_⟩
  · rw [PhotoData.updateImages_inline, if_pos ⟨hb, h⟩]
  · rw [PhotoData.updateImages_inline, if_neg]
    intro hc
    exact h hc.2
  · have hinner : (p.updateImages b s t l).inlineThumbnailBytes = b := by
      rw [PhotoData.updateImages_inline, if_pos ⟨hb, h⟩]
    rw [PhotoData.updateImages_inline, hinner, if_neg]
    intro hc
    exact hb hc.2

/-- A concrete update payload with an invalid location (slot untouched). -/
def imageNoLocation : ImageWithLocation :=
  ImageWithLocation.mk (ImageLocation.mk false 0 0 [] 0) 0

/-- Witness for C6 at concrete inputs: `[1, 2]` is stored by the first
call and survives a second call that supplies `[9]`. -/
theorem c6_inline_thumbnail_write_once_witness :
    ((photoThumbOnly.updateImages [1, 2] imageNoLocation imageNoLocation
      imageNoLocation).updateImages [9] imageNoLocation imageNoLocation
        imageNoLocation).inlineThumbnailBytes = [1, 2] :=
  (c6_inline_thumbnail_write_once photoThumbOnly [1, 2] [9] imageNoLocation
    imageNoLocation imageNoLocation imageNoLocation imageNoLocation
    imageNoLocation).2.2 (by decide) (by decide)

/-- `loading()` looks at the Large slot's loader (the `Large` scan resolves
to the Large index itself). -/
theorem PhotoData.loading_eq (p : PhotoData) :
    p.loading
      = (p.images.get (PhotoSizeIndex PhotoSize.Large)).loader.isSome := by
  simp [PhotoData.loading, PhotoData.loadingAt, p.validSizeIndex_Large]

/-- `cancel()` does nothing when no Large loader is active. -/
theorem PhotoData.cancel_noop (p : PhotoData)
    (h : (p.images.get (PhotoSizeIndex PhotoSize.Large)).loader = none) :
    p.cancel = p := by
  simp [PhotoData.cancel, PhotoData.loading_eq, h]

/-- `cancel()` signals the active Large loader when one is present. -/
theorem PhotoData.cancel_signals (p : PhotoData) (l : Loader)
    (h : (p.images.get (PhotoSizeIndex PhotoSize.Large)).loader = some l) :
    (p.cancel.images.get (PhotoSizeIndex PhotoSize.Large)).loader
      = some l.cancel := by
  have h2 : (p.images.get 2).loader = some l := h
  simp [PhotoData.cancel, PhotoData.loading_eq, h2, PhotoSizeIndex,
    PhotoImages.get_set_self]

/-- Claim C9: the Cancel click action is a no-op when the handler is
invalid or the entity has no timestamp; while uploading it resolves the
owning message through the registry and invokes the external cancel-upload
UI flow (and does nothing when no message resolves); otherwise it calls the
entity's `cancel()`, which signals the Large loader only when one is
active. -/
theorem c9_cancel_click_spec (valid : Bool) (p : PhotoData)
    (item : Option Nat) :
    (valid = false →
      photoCancelOnClick valid p item = (p, CancelClickEffect.nothing))
    ∧ (p.date = 0 →
      photoCancelOnClick valid p item = (p, CancelClickEffect.nothing))
    ∧ (valid = true → p.date ≠ 0 → p.uploading = true →
        (photoCancelOnClick valid p item).1 = p
        ∧ (∀ m, item = some m →
            (photoCancelOnClick valid p item).2
              = CancelClickEffect.cancelUploadLayer m)
        ∧ (item = none →
            (photoCancelOnClick valid p item).2 = CancelClickEffect.nothing))
    ∧ (valid = true → p.date ≠ 0 → p.uploading = false →
        photoCancelOnClick valid p item
          = (p.cancel, CancelClickEffect.entityCancel)
        ∧ ((p.images.get (PhotoSizeIndex PhotoSize.Large)).loader = none →
            p.cancel = p)
        ∧ (∀ l,
            (p.images.get (PhotoSizeIndex PhotoSize.Large)).loader = some l →
            (p.cancel.images.get (PhotoSizeIndex PhotoSize.Large)).loader
              = some l.cancel)) := by
  refine ⟨fun hv => ?_, fun hd => ?_, fun hv hd hu => ⟨?_, fun m hm => ?_,
    fun hm => ?_⟩, fun hv hd hu => ⟨?_, fun hl => p.cancel_noop hl,
    fun l hl => p.cancel_signals l hl⟩⟩
  · simp [photoCancelOnClick, hv]
  · cases valid <;> simp [photoCancelOnClick, hd]
  · subst hv; simp [photoCancelOnClick, hd, hu]
    cases item <;> simp
  · subst hv hm; simp [photoCancelOnClick, hd, hu]
  · subst hv hm; simp [photoCancelOnClick, hd, hu]
  · subst hv; simp [photoCancelOnClick, hd, hu]

/-- Witness for C9: clicking Cancel on the concrete downloading entity
cancels at the entity level and marks its Large loader cancel-requested;
with an invalid handler nothing happens. -/
theorem c9_cancel_click_spec_witness :
    photoCancelOnClick true photoLoadingLarge none
      = (photoLoadingLarge.cancel, CancelClickEffect.entityCancel)
    ∧ (photoLoadingLarge.cancel.images.get
        (PhotoSizeIndex PhotoSize.Large)).loader = some loaderIdle.cancel
    ∧ photoCancelOnClick false photoUploading (some 4)
        = (photoUploading, CancelClickEffect.nothing) := by
  have h4 := (c9_cancel_click_spec true photoLoadingLarge none).2.2.2 rfl
    (by decide) (by decide)
  have h1 := (c9_cancel_click_spec false photoUploading (some 4)).1 rfl
  exact ⟨h4.1, h4.2.2 loaderIdle (by decide), h1⟩

/-! Helper lemmas about the external cache model. -/

/-- `copyIfEmpty` never disturbs an existing cache entry. -/
theorem Cache.copyIfEmpty_preserves (c : Cache) (f t k : Nat) (v : Bytes)
    (h : c.get k = some v) : (c.copyIfEmpty f t).get k = some v := by
  unfold Cache.copyIfEmpty
  split_ifs with ht
  · exact h
  · cases hf : c.get f with
    | none => exact h
    | some v2 =>
      have hk : k ≠ t := by
        intro hk
        exact ht (by rw [← hk, h]; rfl)
      have hbeq : (k == t) = false := beq_eq_false_iff_ne.mpr hk
      simp only [Cache.get, List.lookup, hbeq]
      exact h

/-- A key whose value changed under `copyIfEmpty` is the destination key,
and it was empty before. -/
theorem Cache.copyIfEmpty_changes (c : Cache) (f t k : Nat)
    (h : (c.copyIfEmpty f t).get k ≠ c.get k) : k = t ∧ c.get t = none := by
  unfold Cache.copyIfEmpty at h
  split_ifs at h with ht
  · exact absurd rfl h
  · cases hf : c.get f with
    | none => rw [hf] at h; exact absurd rfl h
    | some v2 =>
      rw [hf] at h
      by_cases hk : k = t
      · subst hk
        exact ⟨rfl, Option.not_isSome_iff_eq_none.mp (by simpa using ht)⟩
      · exfalso
        apply h
        have hbeq : (k == t) = false := beq_eq_false_iff_ne.mpr hk
        simp only [Cache.get, List.lookup, hbeq]

/-- One loop iteration of `collectLocalData` never disturbs an existing
cache entry. -/
theorem PhotoData.collectLocalStep_preserves (p other : PhotoData)
    (c : Cache) (i k : Nat) (v : Bytes) (h : c.get k = some v) :
    (p.collectLocalStep other c i).get k = some v := by
  unfold PhotoData.collectLocalStep
  dsimp only
  split_ifs <;>
    first
      | exact Cache.copyIfEmpty_preserves _ _ _ _ _ h
      | exact h

/-- A key changed by one loop iteration is that slot's destination key,
with a non-falsy source key, and was empty before. -/
theorem PhotoData.collectLocalStep_changes (p other : PhotoData) (c : Cache)
    (i k : Nat) (h : (p.collectLocalStep other c i).get k ≠ c.get k) :
    c.get k = none ∧ k = (p.images.get i).location.cacheKey
      ∧ (other.images.get i).location.cacheKey ≠ 0 ∧ k ≠ 0 := by
  unfold PhotoData.collectLocalStep at h
  dsimp only at h
  split_ifs at h with h1 h2
  · obtain ⟨hk, hn⟩ := Cache.copyIfEmpty_changes _ _ _ _ h
    exact ⟨hk ▸ hn, hk, h1, hk ▸ h2⟩
  · exact absurd rfl h
  · exact absurd rfl h

/-- The `collectLocalData` loop unrolled over the three slot indices. -/
theorem PhotoData.collectLocalData_eq (p other : PhotoData) (c : Cache)
    (h : ¬other.id = p.id) :
    p.collectLocalData other c =
      p.collectLocalStep other
        (p.collectLocalStep other (p.collectLocalStep other c 0) 1) 2 := by
  unfold PhotoData.collectLocalData
  rw [if_neg h]
  rfl

/-- Claim C7: `collectLocalData(source)` is a no-op when the source is the
entity itself; it never disturbs a cache entry that already holds data; and
any key it fills was empty before, is non-falsy, and is the destination
cache key of a slot whose source slot also has a non-falsy cache key (the
copy goes through `copyIfEmpty`). -/
theorem c7_collectLocalData_spec (p other : PhotoData) (c : Cache) :
    (other.id = p.id → p.collectLocalData other c = c)
    ∧ (∀ k v, c.get k = some v → (p.collectLocalData other c).get k = some v)
    ∧ (∀ k, (p.collectLocalData other c).get k ≠ c.get k →
        c.get k = none ∧ k ≠ 0
        ∧ ∃ i, i < kPhotoSizeCount
            ∧ k = (p.images.get i).location.cacheKey
            ∧ (other.images.get i).location.cacheKey ≠ 0) := by
  refine ⟨fun h => by simp [PhotoData.collectLocalData, h], ?_, ?_⟩
  · intro k v hv
    by_cases hid : other.id = p.id
    · simpa [PhotoData.collectLocalData, hid]
    · rw [PhotoData.collectLocalData_eq p other c hid]
      exact PhotoData.collectLocalStep_preserves _ _ _ _ _ _
        (PhotoData.collectLocalStep_preserves _ _ _ _ _ _
          (PhotoData.collectLocalStep_preserves _ _ _ _ _ _ hv))
  · intro k hk
    by_cases hid : other.id = p.id
    · rw [(by simp [PhotoData.collectLocalData, hid] :
        p.collectLocalData other c = c)] at hk
      exact absurd rfl hk
    · rw [PhotoData.collectLocalData_eq p other c hid] at hk
      by_cases h3 : (p.collectLocalStep other
          (p.collectLocalStep other
            (p.collectLocalStep other c 0) 1) 2).get k
          = (p.collectLocalStep other (p.collectLocalStep other c 0) 1).get k
      · rw [h3] at hk
        by_cases h2 : (p.collectLocalStep other
            (p.collectLocalStep other c 0) 1).get k
            = (p.collectLocalStep other c 0).get k
        · rw [h2] at hk
          obtain ⟨hnone, hkey, hsrc, hk0⟩ :=
            PhotoData.collectLocalStep_changes _ _ _ _ _ hk
          exact ⟨hnone, hk0, 0, by norm_num [kPhotoSizeCount], hkey, hsrc⟩
        · obtain ⟨hnone1, hkey, hsrc, hk0⟩ :=
            PhotoData.collectLocalStep_changes _ _ _ _ _ h2
          have hc : c.get k = none := by
            cases hcc : c.get k with
            | none => rfl
            | some v =>
              have := PhotoData.collectLocalStep_preserves p other c 0 k v hcc
              rw [this] at hnone1
              cases hnone1
          exact ⟨hc, hk0, 1, by norm_num [kPhotoSizeCount], hkey, hsrc⟩
      · obtain ⟨hnone2, hkey, hsrc, hk0⟩ :=
          PhotoData.collectLocalStep_changes _ _ _ _ _ h3
        have hc : c.get k = none := by
          cases hcc : c.get k with
          | none => rfl
          | some v =>
            have := PhotoData.collectLocalStep_preserves p other
              (p.collectLocalStep other c 0) 1 k v
              (PhotoData.collectLocalStep_preserves p other c 0 k v hcc)
            rw [this] at hnone2
            cases hnone2
        exact ⟨hc, hk0, 2, by norm_num [kPhotoSizeCount], hkey, hsrc⟩

/-- A destination entity whose Small slot has cache key 6. -/
def photoDest : PhotoData :=
  PhotoData.mk 10 10
    (PhotoImages.mk (slotValid 100 100 6) slotInvalid slotInvalid)
    [] [] none 2 9

/-- A source entity (different id) whose Small slot has cache key 5. -/
def photoSrc : PhotoData :=
  PhotoData.mk 11 10
    (PhotoImages.mk (slotValid 100 100 5) slotInvalid slotInvalid)
    [] [] none 2 9

/-- A cache in which key 5 holds bytes and key 6 is empty. -/
def cacheA : Cache := [(5, [7])]

/-- Witness for C7: collecting from the entity itself leaves the concrete
cache unchanged; an existing entry (key 5) survives a real collect; and the
key the collect fills (key 6) was empty, is non-falsy, and matches slot 0's
destination/source keys. -/
theorem c7_collectLocalData_spec_witness :
    photoDest.collectLocalData photoDest cacheA = cacheA
    ∧ (photoDest.collectLocalData photoSrc cacheA).get 5 = some [7]
    ∧ (cacheA.get 6 = none ∧ (6 : Nat) ≠ 0
        ∧ ∃ i, i < kPhotoSizeCount
            ∧ 6 = (photoDest.images.get i).location.cacheKey
            ∧ (photoSrc.images.get i).location.cacheKey ≠ 0) :=
  ⟨(c7_collectLocalData_spec photoDest photoDest cacheA).1 rfl,
    (c7_collectLocalData_spec photoDest photoSrc cacheA).2.1 5 [7] (by decide),
    (c7_collectLocalData_spec photoDest photoSrc cacheA).2.2 6 (by decide)⟩

/-- Bounds of the `KeepAspectRatio` downscale to the 1280-square followed
by the 1-clamp, for dimensions exceeding the side limit: both results land
in `[1, 1280]`, neither grows, and the cross products differ by less than
the larger original side (aspect preserved up to integer rounding). -/
theorem scaledKeepAspect_bounds (w h : Int) (hw : 1 ≤ w) (hh : 1 ≤ h)
    (hbig : ¬(w ≤ 1280 ∧ h ≤ 1280)) :
    1 ≤ max ((QSize.mk w h).scaledKeepAspect (QSize.mk 1280 1280)
        (QSize.mk 1280 1280)).w 1
    ∧ max ((QSize.mk w h).scaledKeepAspect (QSize.mk 1280 1280)
        (QSize.mk 1280 1280)).w 1 ≤ 1280
    ∧ 1 ≤ max ((QSize.mk w h).scaledKeepAspect (QSize.mk 1280 1280)
        (QSize.mk 1280 1280)).h 1
    ∧ max ((QSize.mk w h).scaledKeepAspect (QSize.mk 1280 1280)
        (QSize.mk 1280 1280)).h 1 ≤ 1280
    ∧ max ((QSize.mk w h).scaledKeepAspect (QSize.mk 1280 1280)
        (QSize.mk 1280 1280)).w 1 ≤ w
    ∧ max ((QSize.mk w h).scaledKeepAspect (QSize.mk 1280 1280)
        (QSize.mk 1280 1280)).h 1 ≤ h
    ∧ |max ((QSize.mk w h).scaledKeepAspect (QSize.mk 1280 1280)
          (QSize.mk 1280 1280)).w 1 * h
        - max ((QSize.mk w h).scaledKeepAspect (QSize.mk 1280 1280)
          (QSize.mk 1280 1280)).h 1 * w| < max w h := by
  have h0 : (0 : Int) < h := by omega
  have hw0 : (0 : Int) < w := by omega
  unfold QSize.scaledKeepAspect
  have hne : ¬((QSize.mk w h).w = 0 ∨ (QSize.mk w h).h = 0) := by
    show ¬(w = 0 ∨ h = 0)
    omega
  rw [if_neg hne]
  dsimp only
  have htd : Int.tdiv (1280 * w) h = 1280 * w / h :=
    Int.div_eq_ediv (by positivity) (by omega)
  have htd2 : Int.tdiv (1280 * h) w = 1280 * h / w :=
    Int.div_eq_ediv (by positivity) (by omega)
  rw [htd, htd2]
  have hq0 : 0 ≤ 1280 * w / h := Int.ediv_nonneg (by positivity) (by omega)
  have hqml : 1280 * w / h * h ≤ 1280 * w := Int.ediv_mul_le _ (by omega)
  have hqlt : 1280 * w < (1280 * w / h + 1) * h :=
    Int.lt_ediv_add_one_mul_self _ h0
  have hr0 : 0 ≤ 1280 * h / w := Int.ediv_nonneg (by positivity) (by omega)
  have hrml : 1280 * h / w * w ≤ 1280 * h := Int.ediv_mul_le _ (by omega)
  have hrlt : 1280 * h < (1280 * h / w + 1) * w :=
    Int.lt_ediv_add_one_mul_self _ hw0
  by_cases hcase : 1280 * w / h ≤ 1280
  · rw [if_pos hcase]
    dsimp only
    have hh1280 : 1280 < h := by
      by_contra hcon
      push_neg at hcon
      have hwgt : 1280 < w := by
        rcases not_and_or.mp hbig with hc | hc <;> omega
      have hwq : w ≤ 1280 * w / h :=
        (Int.le_ediv_iff_mul_le h0).mpr (by nlinarith)
      omega
    have hqw : 1280 * w / h ≤ w := by
      have hmono : 1280 * w / h ≤ h * w / h :=
        Int.ediv_le_ediv h0 (by nlinarith)
      rwa [Int.mul_ediv_cancel_left w (by omega : h ≠ 0)] at hmono
    have hmax1280 : max (1280 : Int) 1 = 1280 := by norm_num
    refine ⟨le_max_right _ _, max_le hcase (by norm_num), by norm_num,
      by rw [hmax1280], max_le hqw hw, by rw [hmax1280]; omega, ?_⟩
    rw [hmax1280]
    refine lt_of_lt_of_le ?_ (le_max_right w h)
    rcases le_or_lt 1 (1280 * w / h) with hq1 | hq1
    · rw [max_eq_left hq1]
      refine abs_lt.mpr ⟨by nlinarith, by nlinarith⟩
    · have hqz : 1280 * w / h = 0 := by omega
      rw [hqz] at hqlt ⊢
      rw [max_eq_right (by norm_num : (0 : Int) ≤ 1)]
      refine abs_lt.mpr ⟨by nlinarith, by nlinarith⟩
  · rw [if_neg hcase]
    dsimp only
    push_neg at hcase
    have hw1280 : 1280 < w := by
      by_contra hcon
      push_neg at hcon
      have hhgt : 1280 < h := by
        rcases not_and_or.mp hbig with hc | hc <;> omega
      have hqw : 1280 * w / h ≤ w := by
        have hmono : 1280 * w / h ≤ h * w / h :=
          Int.ediv_le_ediv h0 (by nlinarith)
        rwa [Int.mul_ediv_cancel_left w (by omega : h ≠ 0)] at hmono
      omega
    have hhw : h < w := by
      have h1281 : (1281 : Int) ≤ 1280 * w / h := by omega
      have := (Int.le_ediv_iff_mul_le h0).mp h1281
      nlinarith
    have hrh : 1280 * h / w ≤ h := by
      have hmono : 1280 * h / w ≤ w * h / w :=
        Int.ediv_le_ediv hw0 (by nlinarith)
      rwa [Int.mul_ediv_cancel_left h (by omega : w ≠ 0)] at hmono
    have hr1280 : 1280 * h / w ≤ 1280 := by
      have hmono : 1280 * h / w ≤ 1280 * w / w :=
        Int.ediv_le_ediv hw0 (by nlinarith)
      rwa [Int.mul_ediv_cancel 1280 (by omega : w ≠ 0)] at hmono
    have hmax1280 : max (1280 : Int) 1 = 1280 := by norm_num
    refine ⟨by norm_num, by rw [hmax1280], le_max_right _ _,
      max_le hr1280 (by norm_num), by rw [hmax1280]; omega,
      max_le hrh hh, ?_⟩
    rw [hmax1280]
    refine lt_of_lt_of_le ?_ (le_max_left w h)
    rcases le_or_lt 1 (1280 * h / w) with hr1 | hr1
    · rw [max_eq_left hr1]
      refine abs_lt.mpr ⟨by nlinarith, by nlinarith⟩
    · have hrz : 1280 * h / w = 0 := by omega
      rw [hrz] at hrlt ⊢
      rw [max_eq_right (by norm_num : (0 : Int) ≤ 1)]
      refine abs_lt.mpr ⟨by nlinarith, by nlinarith⟩

/-- `PhotoData.size` with its let-bindings expanded. -/
theorem PhotoData.size_unfold (p : PhotoData) (s : PhotoSize) :
    p.size s =
      if (QSize.mk (p.location s).width (p.location s).height).isEmpty then
        none
      else if (p.location s).width ≤ PhotoData.SideLimit
          ∧ (p.location s).height ≤ PhotoData.SideLimit then
        some (QSize.mk (p.location s).width (p.location s).height)
      else
        some (QSize.mk
          (max ((QSize.mk (p.location s).width
              (p.location s).height).scaledKeepAspect
                (QSize.mk PhotoData.SideLimit PhotoData.SideLimit)
                (QSize.mk PhotoData.SideLimit PhotoData.SideLimit)).w 1)
          (max ((QSize.mk (p.location s).width
              (p.location s).height).scaledKeepAspect
                (QSize.mk PhotoData.SideLimit PhotoData.SideLimit)
                (QSize.mk PhotoData.SideLimit PhotoData.SideLimit)).h 1)) :=
  rfl

/-- Claim C10: `size(s)` is `nullopt` exactly when the resolved location's
dimensions are empty; with both dimensions in `[1, SideLimit]` it returns
them unchanged; and when a dimension exceeds `SideLimit` it returns an
aspect-ratio-preserving downscale with each returned dimension in
`[1, SideLimit]`, neither exceeding the original, with the cross products
agreeing up to less than the larger original side. -/
theorem c10_size_spec (p : PhotoData) (s : PhotoSize) :
    (p.size s = none ↔
      ((p.location s).width < 1 ∨ (p.location s).height < 1))
    ∧ (1 ≤ (p.location s).width → 1 ≤ (p.location s).height →
        (p.location s).width ≤ PhotoData.SideLimit →
        (p.location s).height ≤ PhotoData.SideLimit →
        p.size s = some (QSize.mk (p.location s).width (p.location s).height))
    ∧ (1 ≤ (p.location s).width → 1 ≤ (p.location s).height →
        ¬((p.location s).width ≤ PhotoData.SideLimit
            ∧ (p.location s).height ≤ PhotoData.SideLimit) →
        ∃ w2 h2, p.size s = some (QSize.mk w2 h2)
          ∧ 1 ≤ w2 ∧ w2 ≤ PhotoData.SideLimit
          ∧ 1 ≤ h2 ∧ h2 ≤ PhotoData.SideLimit
          ∧ w2 ≤ (p.location s).width ∧ h2 ≤ (p.location s).height
          ∧ |w2 * (p.location s).height - h2 * (p.location s).width|
              < max (p.location s).width (p.location s).height) := by
  rw [PhotoData.size_unfold]
  simp only [PhotoData.SideLimit, kPhotoSideLimit]
  generalize (p.location s).width = W
  generalize (p.location s).height = H
  refine ⟨⟨?_, ?_⟩, ?_, ?_⟩
  · intro hnone
    by_contra hcon
    push_neg at hcon
    have hempty : (QSize.mk W H).isEmpty = false := by
      simp [QSize.isEmpty]
      omega
    rw [hempty] at hnone
    simp only [Bool.false_eq_true, if_false] at hnone
    split_ifs at hnone <;> simp at hnone
  · intro hemp
    have hempty : (QSize.mk W H).isEmpty = true := by
      simp [QSize.isEmpty]
      omega
    rw [hempty]
    simp
  · intro h1 h2 h3 h4
    have hempty : (QSize.mk W H).isEmpty = false := by
      simp [QSize.isEmpty]
      omega
    rw [hempty]
    simp only [Bool.false_eq_true, if_false]
    rw [if_pos ⟨h3, h4⟩]
  · intro h1 h2 hbig
    have hb := scaledKeepAspect_bounds W H h1 h2 hbig
    refine ⟨max ((QSize.mk W H).scaledKeepAspect (QSize.mk 1280 1280)
        (QSize.mk 1280 1280)).w 1,
      max ((QSize.mk W H).scaledKeepAspect (QSize.mk 1280 1280)
        (QSize.mk 1280 1280)).h 1, ?_, hb.1, hb.2.1, hb.2.2.1, hb.2.2.2.1,
      hb.2.2.2.2.1, hb.2.2.2.2.2.1, hb.2.2.2.2.2.2⟩
    have hempty : (QSize.mk W H).isEmpty = false := by
      simp [QSize.isEmpty]
      omega
    rw [hempty]
    simp only [Bool.false_eq_true, if_false]
    rw [if_neg hbig]

/-- An entity whose Large slot holds a valid oversized 2000 by 1000
location. -/
def photoWide : PhotoData :=
  PhotoData.mk 5 10
    (PhotoImages.mk slotInvalid slotInvalid (slotValid 2000 1000 8))
    [] [] none 2 9

/-- Witness for C10: the thumbnail-only entity's 320 by 240 resolved size
is returned unchanged; an entity with no valid location resolves to an
empty size and gets `none`; the oversized entity's result satisfies all the
downscale bounds. -/
theorem c10_size_spec_witness :
    photoThumbOnly.size PhotoSize.Thumbnail = some (QSize.mk 320 240)
    ∧ photoUploading.size PhotoSize.Large = none
    ∧ (∃ w2 h2, photoWide.size PhotoSize.Large = some (QSize.mk w2 h2)
        ∧ 1 ≤ w2 ∧ w2 ≤ PhotoData.SideLimit
        ∧ 1 ≤ h2 ∧ h2 ≤ PhotoData.SideLimit
        ∧ w2 ≤ (photoWide.location PhotoSize.Large).width
        ∧ h2 ≤ (photoWide.location PhotoSize.Large).height
        ∧ |w2 * (photoWide.location PhotoSize.Large).height
            - h2 * (photoWide.location PhotoSize.Large).width|
              < max (photoWide.location PhotoSize.Large).width
                  (photoWide.location PhotoSize.Large).height) := by
  refine ⟨?_, ?_, ?_⟩
  · have h := (c10_size_spec photoThumbOnly PhotoSize.Thumbnail).2.1
      (by decide) (by decide) (by decide) (by decide)
    rw [h]
    decide
  · exact (c10_size_spec photoUploading PhotoSize.Large).1.mpr (by decide)
  · exact (c10_size_spec photoWide PhotoSize.Large).2.2 (by decide)
      (by decide) (by decide)

/-- Witness for C4 at a concrete entity and reference value. -/
theorem c4_refreshFileReference_witness :
    (photoThumbOnly.refreshFileReference [3]).fileReference = [3]
    ∧ ((photoThumbOnly.refreshFileReference [3]).images.get
        (PhotoSizeIndex PhotoSize.Small)).location.fileReference = [3] :=
  c4_refreshFileReference photoThumbOnly [3] PhotoSize.Small
